import Mathlib

/-!
Shallow embedding of the bounded concurrent transfer pipeline of
xenvoid404/userbot-downloader-video: the task registry (src/task_manager.py),
the cleanup service (src/file_manager.py), the ffmpeg adapter
(src/ffmpeg_helper.py) and the two pipeline workers (src/workers.py).
External effects (the transfer client, the ffmpeg subprocess, the
filesystem) are modelled as explicit oracles and an explicit filesystem
state; the worker bodies are translated statement by statement from the
Python source.
-/

namespace Userbot

/-- Task kinds, from TaskType in src/utils.py. -/
inductive TaskType
  | download
  | upload
deriving DecidableEq, Repr

/-- Model of a pathlib.Path: parent directory components, stem, and suffix
(the final extension, dot included). -/
structure FPath where
  dir : List String
  stem : String
  suffix : String
deriving DecidableEq, Repr

/-- Path.with_stem: replace the stem, keep directory and suffix. -/
def FPath.with_stem (p : FPath) (s : String) : FPath :=
  { p with stem := s }

/-- Path.with_suffix: replace the suffix, keep directory and stem. -/
def FPath.with_suffix (p : FPath) (s : String) : FPath :=
  { p with suffix := s }

/-- The filesystem, as the characteristic function of the set of files
that currently exist. -/
abbrev FS := FPath → Bool

/-- Point update of the filesystem. -/
def FS.set (fs : FS) (p : FPath) (b : Bool) : FS :=
  fun q => if q = p then b else fs q

/-- The task registry map keyed by task id, reduced to the membership
information the claims need (self._tasks of TaskManager). -/
abbrev Reg := Nat → Bool

/-- Observable events emitted by a worker run, in program order. -/
inductive Event
  | acquire (k : TaskType)
  | release (k : TaskType)
  | transferStart
  | cancelTransfer
  | respondDownloadComplete
  | respondDownloadTimeout
  | respondDownloadFailed
  | respondFileNotFound
  | respondUploadFailed
  | respondUploadComplete (optimized : Bool)
  | sendFile (p : FPath)
  | cleanupCall (p : FPath)
  | fileRemoved (p : FPath)
  | removeTask (id : Nat)
deriving DecidableEq, Repr

/-- Event is a cleanup_file invocation. -/
def Event.isCleanupCall : Event → Bool
  | .cleanupCall _ => true
  | _ => false

/-- Event is an actual file deletion. -/
def Event.isFileRemoved : Event → Bool
  | .fileRemoved _ => true
  | _ => false

/-- Event is a TaskManager.remove_task invocation. -/
def Event.isRemoveTask : Event → Bool
  | .removeTask _ => true
  | _ => false

/-- Event is a client.send_file invocation. -/
def Event.isSend : Event → Bool
  | .sendFile _ => true
  | _ => false

/-- Boolean membership in a trace. -/
def memB (tr : List Event) (a : Event) : Bool :=
  match tr with
  | [] => false
  | e :: rest => if e = a then true else memB rest a

/-- Some occurrence of a strictly precedes some occurrence of b in the
trace (first occurrence of a, then b somewhere after it). -/
def occursBeforeB (tr : List Event) (a b : Event) : Bool :=
  match tr with
  | [] => false
  | e :: rest => if e = a then memB rest b else occursBeforeB rest a b

/-- FileManager.cleanup_file (src/file_manager.py:13-32): returns False
when the argument is None or the file does not exist; otherwise unlinks
the file. The oracle u tells whether the unlink call of the environment
succeeds for a given path; a failing unlink is swallowed and reported as
False. The event list records the invocation and any actual deletion. -/
def cleanup_file (u : FPath → Bool) : Option FPath → FS → List Event × Bool × FS
  | none, fs => ([], false, fs)
  | some p, fs =>
    if fs p then
      if u p then ([Event.cleanupCall p, Event.fileRemoved p], true, fs.set p false)
      else ([Event.cleanupCall p], false, fs)
    else ([Event.cleanupCall p], false, fs)

/-- FileManager.cleanup_files (src/file_manager.py:34-45): drops the None
arguments and runs cleanup_file on each remaining path. -/
def cleanup_files (u : FPath → Bool) (fps : List (Option FPath)) (fs : FS) :
    List Event × List Bool × FS :=
  match fps with
  | [] => ([], [], fs)
  | none :: rest => cleanup_files u rest fs
  | some p :: rest =>
    let c := cleanup_file u (some p) fs
    let r := cleanup_files u rest c.2.2
    (c.1 ++ r.1, c.2.1 :: r.2.1, r.2.2)

/-- TaskManager.reserve_task_id (src/task_manager.py:49-53): under the
registry lock, increment the counter and return it. The lock makes the
increment-and-read atomic, so every concurrent schedule of callers is
some serialization of these atomic steps. -/
def reserve_task_id (counter : Nat) : Nat × Nat :=
  (counter + 1, counter + 1)

/-- N successive (serialized) calls to reserve_task_id starting from a
given counter value; returns the ids handed out and the final counter. -/
def reserveN : Nat → Nat → List Nat × Nat
  | 0, c => ([], c)
  | n + 1, c =>
    let r := reserve_task_id c
    let rest := reserveN n r.2
    (r.1 :: rest.1, rest.2)

/-- TaskManager.remove_task (src/task_manager.py:83-90): pop the id from
the task map; removing an absent id is a no-op. -/
def remove_task (reg : Reg) (id : Nat) : Reg :=
  fun j => if j = id then false else reg j

/-- State of the two admission pools created in TaskManager init
(src/task_manager.py:40-42): per-kind capacity (fixed at construction),
current semaphore value, and the number of tasks currently holding a
permit. -/
structure PoolState where
  downCap : Nat
  upCap : Nat
  downVal : Nat
  upVal : Nat
  downHeld : Nat
  upHeld : Nat
deriving DecidableEq, Repr

/-- TaskManager init: download_sem = Semaphore(max_downloads),
upload_sem = Semaphore(max_uploads), no permits held. -/
def initPool (max_downloads max_uploads : Nat) : PoolState :=
  ⟨max_downloads, max_uploads, max_downloads, max_uploads, 0, 0⟩

/-- Atomic pool transitions. A semaphore acquire completes only when the
value is positive and decrements it; in the program every release is the
exit of an async-with block of a current permit holder (workers.py:46 and
workers.py:128), so a release requires a holder and increments the value.
No transition touches the capacities. -/
inductive PoolStep : PoolState → PoolState → Prop
  | acquireDown (s : PoolState) (h : 0 < s.downVal) :
      PoolStep s { s with downVal := s.downVal - 1, downHeld := s.downHeld + 1 }
  | releaseDown (s : PoolState) (h : 0 < s.downHeld) :
      PoolStep s { s with downVal := s.downVal + 1, downHeld := s.downHeld - 1 }
  | acquireUp (s : PoolState) (h : 0 < s.upVal) :
      PoolStep s { s with upVal := s.upVal - 1, upHeld := s.upHeld + 1 }
  | releaseUp (s : PoolState) (h : 0 < s.upHeld) :
      PoolStep s { s with upVal := s.upVal + 1, upHeld := s.upHeld - 1 }

/-- States reachable from a given initial pool state by any interleaving
of acquire and release steps. -/
inductive PoolReachable (init : PoolState) : PoolState → Prop
  | refl : PoolReachable init init
  | step {s t : PoolState} : PoolReachable init s → PoolStep s t →
      PoolReachable init t

/-- Outcome of one _run_command invocation (src/ffmpeg_helper.py:22-71).
Everything except ok makes _run_command raise FFmpegError: timeout of the
subprocess, nonzero exit status, a missing ffmpeg binary, or any other
error wrapped into FFmpegError. -/
inductive CmdOutcome
  | ok
  | timeout
  | procError
  | binMissing
  | otherError
deriving DecidableEq, Repr

/-- Parse outcome of the ffprobe show_format output consumed by
check_if_video: either the JSON is malformed, or it yields a format_name
whose video-format substring test evaluates as recorded. -/
inductive FormatParse
  | parseError
  | formatName (isVideo : Bool)
deriving DecidableEq, Repr

/-- Parse outcome of the ffprobe show_streams output consumed by
get_video_metadata: malformed JSON, no stream with codec_type video, or a
video stream with the recorded width, height and rounded duration. -/
inductive ProbeParse
  | parseError
  | noVideoStream
  | stream (width height duration : Nat)
deriving DecidableEq, Repr

/-- FFmpegHelper.check_if_video (src/ffmpeg_helper.py:73-102): any
exception (FFmpegError from the run, or a parse failure) is caught and
surfaced as False; on success it returns the substring test on
format_name. -/
def check_if_video (c : CmdOutcome) (p : FormatParse) : Bool :=
  match c with
  | .ok =>
    match p with
    | .parseError => false
    | .formatName b => b
  | _ => false

/-- FFmpegHelper.get_video_metadata (src/ffmpeg_helper.py:104-153):
FFmpegError from the run, malformed JSON, and a missing video stream are
all caught and surfaced as (None, None, None); on success it returns the
three stream fields (each defaulting to 0 when the key is absent). -/
def get_video_metadata (c : CmdOutcome) (p : ProbeParse) :
    Option Nat × Option Nat × Option Nat :=
  match c with
  | .ok =>
    match p with
    | .parseError => (none, none, none)
    | .noVideoStream => (none, none, none)
    | .stream w h d => (some w, some h, some d)
  | _ => (none, none, none)

/-- FFmpegHelper.generate_thumbnail (src/ffmpeg_helper.py:155-198): the
target path is the video path with suffix .jpg; created records whether
the ffmpeg run wrote that file. On FFmpegError the function returns None;
on a successful run it returns the path only if the file now exists. -/
def generate_thumbnail (c : CmdOutcome) (created : Bool) (video_path : FPath)
    (fs : FS) : Option FPath × FS :=
  let thumb_path := video_path.with_suffix ".jpg"
  let fs1 := if created then fs.set thumb_path true else fs
  match c with
  | .ok => if fs1 thumb_path then (some thumb_path, fs1) else (none, fs1)
  | _ => (none, fs1)

/-- FFmpegHelper.optimize_for_streaming (src/ffmpeg_helper.py:200-248):
the output path is the input path with _stream appended to the stem;
created records whether the ffmpeg run wrote that file. On FFmpegError
the function returns None; on a successful run it returns the output path
only if the file now exists. -/
def optimize_for_streaming (c : CmdOutcome) (created : Bool) (input_path : FPath)
    (fs : FS) : Option FPath × FS :=
  let output_path := input_path.with_stem (input_path.stem ++ "_stream")
  let fs1 := if created then fs.set output_path true else fs
  match c with
  | .ok => if fs1 output_path then (some output_path, fs1) else (none, fs1)
  | _ => (none, fs1)

/-- Config.VIDEO_EXTENSIONS (src/config.py:36-43). -/
def VIDEO_EXTENSIONS : List String :=
  [".mp4", ".mov", ".avi", ".mkv", ".flv", ".webm"]

/-- The extension test of workers.py:139:
original_path.suffix.lower() in config.VIDEO_EXTENSIONS. -/
def suffix_is_video (p : FPath) : Bool :=
  VIDEO_EXTENSIONS.contains p.suffix.toLower

/-- Python truthiness of an optional integer: None and 0 are falsy. -/
def truthyNat : Option Nat → Bool
  | none => false
  | some n => n != 0

/-- The guard of workers.py:164: all([width, height, duration]). -/
def all_truthy (m : Option Nat × Option Nat × Option Nat) : Bool :=
  truthyNat m.1 && truthyNat m.2.1 && truthyNat m.2.2

/-- Terminal status of a worker run. -/
inductive Status
  | success
  | failure
  | timeout
  | notFound
deriving DecidableEq, Repr

/-- Result of one worker run: its event trace in program order, the final
filesystem, the final registry, and the terminal status. -/
structure WorkerRun where
  trace : List Event
  fs : FS
  reg : Reg
  status : Status

/-- Environment of one inbound run: how the client.download_media call
ends (success, expiry of the asyncio.wait_for bound, or any other
exception), and whether the failed transfer had already written bytes to
the destination path. -/
inductive DlOutcome
  | success
  | timeout
  | error
deriving DecidableEq, Repr

/-- Inbound worker environment. -/
structure DlEnv where
  outcome : DlOutcome
  wroteBytes : Bool
deriving DecidableEq, Repr

/-- Workers.download_worker (src/workers.py:19-93). The whole body runs
inside the download semaphore. On success the file is at save_path and no
cleanup happens; on wait_for expiry the transfer is cancelled, the
timeout is reported, then cleanup_file removes the partial file; on any
other exception the failure is reported, then cleanup_file runs; the
finally block calls remove_task on every path, before the semaphore is
released. -/
def download_worker (env : DlEnv) (save_path : FPath) (task_id : Nat)
    (u : FPath → Bool) (fs : FS) (reg : Reg) : WorkerRun :=
  match env.outcome with
  | .success =>
    { trace := [Event.acquire .download, Event.transferStart,
        Event.respondDownloadComplete, Event.removeTask task_id,
        Event.release .download]
      fs := fs.set save_path true
      reg := remove_task reg task_id
      status := .success }
  | .timeout =>
    let fs1 := if env.wroteBytes then fs.set save_path true else fs
    let c := cleanup_file u (some save_path) fs1
    { trace := [Event.acquire .download, Event.transferStart,
        Event.cancelTransfer, Event.respondDownloadTimeout] ++ c.1 ++
        [Event.removeTask task_id, Event.release .download]
      fs := c.2.2
      reg := remove_task reg task_id
      status := .timeout }
  | .error =>
    let fs1 := if env.wroteBytes then fs.set save_path true else fs
    let c := cleanup_file u (some save_path) fs1
    { trace := [Event.acquire .download, Event.transferStart,
        Event.respondDownloadFailed] ++ c.1 ++
        [Event.removeTask task_id, Event.release .download]
      fs := c.2.2
      reg := remove_task reg task_id
      status := .failure }

/-- Outbound worker environment: the oracles for the four adapter
invocations and for client.send_file. -/
structure UlEnv where
  checkCmd : CmdOutcome
  checkParse : FormatParse
  optCmd : CmdOutcome
  optCreated : Bool
  metaCmd : CmdOutcome
  metaProbe : ProbeParse
  thumbCmd : CmdOutcome
  thumbCreated : Bool
  sendOk : Bool
deriving DecidableEq, Repr

/-- The second cleanup argument of workers.py:226:
optimized_path if optimized_path != original_path else None. -/
def opt_cleanup_arg (optimized_path : Option FPath) (original_path : FPath) :
    Option FPath :=
  if optimized_path = some original_path then none else optimized_path

/-- Workers.upload_worker (src/workers.py:95-229). The whole body runs
inside the upload semaphore. A missing source raises FileNotFoundError at
once; otherwise, when the extension and the format probe say video, the
worker tries optimize_for_streaming and switches to the optimized file
only when one was returned and exists; metadata that is not all-truthy
raises ValueError, reported as a generic upload failure; thumbnailing is
best-effort; then send_file runs and either completes or fails. The
finally block always runs cleanup_files on thumbnail, optimized copy
(when distinct from the source) and the source, then remove_task, before
the semaphore is released. -/
def upload_worker (env : UlEnv) (original_path : FPath) (task_id : Nat)
    (u : FPath → Bool) (fs : FS) (reg : Reg) : WorkerRun :=
  if fs original_path = false then
    let c := cleanup_files u [none, opt_cleanup_arg none original_path,
      some original_path] fs
    { trace := [Event.acquire .upload, Event.respondFileNotFound] ++ c.1 ++
        [Event.removeTask task_id, Event.release .upload]
      fs := c.2.2
      reg := remove_task reg task_id
      status := .notFound }
  else
    -- optimization branch (workers.py:139-159)
    let step :=
      if suffix_is_video original_path && check_if_video env.checkCmd env.checkParse then
        let o := optimize_for_streaming env.optCmd env.optCreated original_path fs
        match o.1 with
        | some q =>
          if o.2 q then (some q, o.2, q, true)
          else (some q, o.2, original_path, false)
        | none => (none, o.2, original_path, false)
      else (none, fs, original_path, false)
    let optimized_path := step.1
    let fs1 := step.2.1
    let upload_path := step.2.2.1
    let optimized := step.2.2.2
    let meta := get_video_metadata env.metaCmd env.metaProbe
    if all_truthy meta = false then
      -- ValueError is caught by the generic except (workers.py:216-220)
      let c := cleanup_files u [none, opt_cleanup_arg optimized_path original_path,
        some original_path] fs1
      { trace := [Event.acquire .upload, Event.respondUploadFailed] ++ c.1 ++
          [Event.removeTask task_id, Event.release .upload]
        fs := c.2.2
        reg := remove_task reg task_id
        status := .failure }
    else
      let t := generate_thumbnail env.thumbCmd env.thumbCreated upload_path fs1
      let thumb_path := t.1
      let fs2 := t.2
      if env.sendOk then
        let c := cleanup_files u [thumb_path,
          opt_cleanup_arg optimized_path original_path, some original_path] fs2
        { trace := [Event.acquire .upload, Event.sendFile upload_path,
            Event.respondUploadComplete optimized] ++ c.1 ++
            [Event.removeTask task_id, Event.release .upload]
          fs := c.2.2
          reg := remove_task reg task_id
          status := .success }
      else
        let c := cleanup_files u [thumb_path,
          opt_cleanup_arg optimized_path original_path, some original_path] fs2
        { trace := [Event.acquire .upload, Event.sendFile upload_path,
            Event.respondUploadFailed] ++ c.1 ++
            [Event.removeTask task_id, Event.release .upload]
          fs := c.2.2
          reg := remove_task reg task_id
          status := .failure }

/-! Concrete sample inputs used to instantiate theorems with hypotheses. -/

/-- A sample media path, videos/video.mp4. -/
def samplePath : FPath := ⟨["videos"], "video", ".mp4"⟩

/-- The stream-optimized counterpart of samplePath. -/
def sampleStream : FPath := ⟨["videos"], "video_stream", ".mp4"⟩

/-- A second, distinct sample path. -/
def sampleOther : FPath := ⟨["videos"], "other", ".mkv"⟩

/-- A filesystem on which every file exists. -/
def sampleFsAll : FS := fun _ => true

/-- An empty filesystem. -/
def sampleFsNone : FS := fun _ => false

/-- An unlink oracle that always succeeds. -/
def unlinkAlways : FPath → Bool := fun _ => true

/-- A registry in which every id is live. -/
def sampleReg : Reg := fun _ => true

/-! Helper lemmas shared between the claim theorems. -/

theorem memB_append (l1 l2 : List Event) (a : Event) :
    memB (l1 ++ l2) a = (memB l1 a || memB l2 a) := by
  induction l1 with
  | nil => simp [memB]
  | cons e rest ih =>
    by_cases h : e = a <;> simp [memB, h, ih]

theorem cleanup_file_frame (u : FPath → Bool) (p q : FPath) (fs : FS)
    (h : q ≠ p) : (cleanup_file u (some p) fs).2.2 q = fs q := by
  simp only [cleanup_file]
  split_ifs <;> simp [FS.set, h]

theorem cleanup_file_removes (u : FPath → Bool) (p : FPath) (fs : FS)
    (hu : u p = true) : (cleanup_file u (some p) fs).2.2 p = false := by
  simp only [cleanup_file]
  split_ifs <;> simp_all [FS.set]

theorem cleanup_file_events (u : FPath → Bool) (p : FPath) (fs : FS) :
    (cleanup_file u (some p) fs).1 = [Event.cleanupCall p, Event.fileRemoved p] ∨
    (cleanup_file u (some p) fs).1 = [Event.cleanupCall p] := by
  simp only [cleanup_file]
  split_ifs <;> simp

theorem cleanup_file_memB_call (u : FPath → Bool) (p : FPath) (fs : FS) :
    memB (cleanup_file u (some p) fs).1 (Event.cleanupCall p) = true := by
  rcases cleanup_file_events u p fs with h | h <;> simp [h, memB]

theorem cleanup_file_countP_zero (u : FPath → Bool) (fp : Option FPath)
    (fs : FS) (f : Event → Bool)
    (h1 : ∀ p, f (Event.cleanupCall p) = false)
    (h2 : ∀ p, f (Event.fileRemoved p) = false) :
    (cleanup_file u fp fs).1.countP f = 0 := by
  cases fp with
  | none => rfl
  | some p =>
    rcases cleanup_file_events u p fs with h | h <;>
      simp [h, List.countP_cons, h1, h2]

theorem cleanup_files_frame (u : FPath → Bool) (fps : List (Option FPath))
    (fs : FS) (q : FPath) (h : some q ∉ fps) :
    (cleanup_files u fps fs).2.2 q = fs q := by
  induction fps generalizing fs with
  | nil => rfl
  | cons hd tl ih =>
    cases hd with
    | none =>
      simp only [cleanup_files]
      exact ih _ (fun hx => h (List.mem_cons_of_mem _ hx))
    | some p =>
      have hpq : q ≠ p := by
        intro he
        exact h (by simp [he])
      simp only [cleanup_files]
      rw [ih _ (fun hx => h (List.mem_cons_of_mem _ hx))]
      exact cleanup_file_frame u p q fs hpq

theorem cleanup_files_removes_last (u : FPath → Bool) (a b : Option FPath)
    (p : FPath) (fs : FS) (hu : u p = true) :
    (cleanup_files u [a, b, some p] fs).2.2 p = false := by
  cases a <;> cases b <;>
    simp only [cleanup_files] <;>
    exact cleanup_file_removes u p _ hu

theorem cleanup_files_calls_last (u : FPath → Bool) (a b : Option FPath)
    (p : FPath) (fs : FS) :
    memB (cleanup_files u [a, b, some p] fs).1 (Event.cleanupCall p) = true := by
  cases a <;> cases b <;>
    simp [cleanup_files, memB_append, memB, cleanup_file_memB_call]

theorem cleanup_files_countP_zero (u : FPath → Bool) (fps : List (Option FPath))
    (fs : FS) (f : Event → Bool)
    (h1 : ∀ p, f (Event.cleanupCall p) = false)
    (h2 : ∀ p, f (Event.fileRemoved p) = false) :
    (cleanup_files u fps fs).1.countP f = 0 := by
  induction fps generalizing fs with
  | nil => rfl
  | cons hd tl ih =>
    cases hd with
    | none => simp only [cleanup_files]; exact ih _
    | some p =>
      simp only [cleanup_files, List.countP_append]
      rw [ih]
      rcases cleanup_file_events u p fs with h | h <;>
        simp [h, List.countP_cons, h1, h2]

theorem cleanup_files_memB_other (u : FPath → Bool) (fps : List (Option FPath))
    (fs : FS) (q : FPath) (h : some q ∉ fps) :
    memB (cleanup_files u fps fs).1 (Event.cleanupCall q) = false := by
  induction fps generalizing fs with
  | nil => rfl
  | cons hd tl ih =>
    cases hd with
    | none =>
      simp only [cleanup_files]
      exact ih _ (fun hx => h (List.mem_cons_of_mem _ hx))
    | some p =>
      have hpq : p ≠ q := by
        intro he
        exact h (by simp [he])
      simp only [cleanup_files, memB_append]
      rw [ih _ (fun hx => h (List.mem_cons_of_mem _ hx))]
      rcases cleanup_file_events u p fs with he | he <;> simp [he, memB, hpq]

theorem cleanup_files_memB_not_cleanup (u : FPath → Bool)
    (fps : List (Option FPath)) (fs : FS) (a : Event)
    (h1 : ∀ p, a ≠ Event.cleanupCall p) (h2 : ∀ p, a ≠ Event.fileRemoved p) :
    memB (cleanup_files u fps fs).1 a = false := by
  induction fps generalizing fs with
  | nil => rfl
  | cons hd tl ih =>
    cases hd with
    | none => simp only [cleanup_files]; exact ih _
    | some p =>
      simp only [cleanup_files, memB_append]
      rw [ih]
      rcases cleanup_file_events u p fs with he | he <;>
        simp [he, memB, (h1 p).symm, (h2 p).symm]

theorem reserveN_fst (n c : Nat) : (reserveN n c).1 = List.range' (c + 1) n := by
  induction n generalizing c with
  | zero => rfl
  | succ n ih =>
    simp only [reserveN, reserve_task_id, List.range'_succ]
    rw [ih]

theorem with_stem_stream_ne (p : FPath) :
    p.with_stem (p.stem ++ "_stream") ≠ p := by
  intro h
  have hs : p.stem ++ "_stream" = p.stem := congrArg FPath.stem h
  have hl := congrArg String.length hs
  rw [String.length_append] at hl
  have h7 : "_stream".length = 7 := rfl
  rw [h7] at hl
  omega

theorem optimize_some_eq (c : CmdOutcome) (b : Bool) (p q : FPath) (fs : FS)
    (h : (optimize_for_streaming c b p fs).1 = some q) :
    q = p.with_stem (p.stem ++ "_stream") := by
  unfold optimize_for_streaming at h
  cases c <;> simp_all <;> split_ifs at h <;> simp_all

theorem thumbnail_some_eq (c : CmdOutcome) (b : Bool) (video : FPath)
    (fs : FS) (q : FPath) (h : (generate_thumbnail c b video fs).1 = some q) :
    q = video.with_suffix ".jpg" := by
  unfold generate_thumbnail at h
  cases c <;> simp_all <;> split_ifs at h <;> simp_all

theorem with_suffix_jpg_ne_stream (p : FPath) :
    p.with_suffix ".jpg" ≠ p.with_stem (p.stem ++ "_stream") := by
  intro h
  have hs : p.stem = p.stem ++ "_stream" := congrArg FPath.stem h
  have hl := congrArg String.length hs
  rw [String.length_append] at hl
  have h7 : "_stream".length = 7 := rfl
  rw [h7] at hl
  omega

theorem download_worker_reg (env : DlEnv) (p : FPath) (id : Nat)
    (u : FPath → Bool) (fs : FS) (r : Reg) :
    (download_worker env p id u fs r).reg = remove_task r id := by
  rcases env with ⟨o, w⟩
  cases o <;> rfl

theorem download_removeTask_once (env : DlEnv) (p : FPath) (id : Nat)
    (u : FPath → Bool) (fs : FS) (r : Reg) :
    (download_worker env p id u fs r).trace.countP Event.isRemoveTask = 1 := by
  rcases env with ⟨o, w⟩
  cases o <;>
    simp [download_worker, List.countP_append, List.countP_cons,
      Event.isRemoveTask, cleanup_file_countP_zero]

theorem upload_worker_reg (env : UlEnv) (p : FPath) (id : Nat)
    (u : FPath → Bool) (fs : FS) (r : Reg) :
    (upload_worker env p id u fs r).reg = remove_task r id := by
  simp only [upload_worker]
  repeat' split
  all_goals rfl

theorem upload_removeTask_once (env : UlEnv) (p : FPath) (id : Nat)
    (u : FPath → Bool) (fs : FS) (r : Reg) :
    (upload_worker env p id u fs r).trace.countP Event.isRemoveTask = 1 := by
  simp only [upload_worker]
  repeat' split
  all_goals
    simp [List.countP_append, List.countP_cons, Event.isRemoveTask,
      cleanup_files_countP_zero]

/-! Claim theorems. -/

/-- C1: at every reachable state of the admission pools, the number of
tasks holding a download permit is at most max_downloads and the number
holding an upload permit is at most max_uploads, under any interleaving
of acquires and releases, and both capacities still equal the values
fixed at construction. -/
theorem permit_holders_le_capacity (d uc : Nat) (s : PoolState)
    (h : PoolReachable (initPool d uc) s) :
    s.downHeld ≤ d ∧ s.upHeld ≤ uc ∧ s.downCap = d ∧ s.upCap = uc := by
  have key : s.downVal + s.downHeld = d ∧ s.upVal + s.upHeld = uc ∧
      s.downCap = d ∧ s.upCap = uc := by
    induction h with
    | refl => simp [initPool]
    | step _ hstep ih =>
      cases hstep <;> simp_all <;> omega
  obtain ⟨k1, k2, k3, k4⟩ := key
  exact ⟨by omega, by omega, k3, k4⟩

/-- Witness for C1 at a state reached by one download acquire from a pool
of capacities 3 and 2. -/
theorem permit_holders_le_capacity_witness :
    (PoolState.mk 3 2 2 2 1 0).downHeld ≤ 3 ∧
    (PoolState.mk 3 2 2 2 1 0).upHeld ≤ 2 ∧
    (PoolState.mk 3 2 2 2 1 0).downCap = 3 ∧
    (PoolState.mk 3 2 2 2 1 0).upCap = 2 :=
  permit_holders_le_capacity 3 2 _
    (PoolReachable.step PoolReachable.refl
      (PoolStep.acquireDown (initPool 3 2) (by decide)))

/-- C3: on a fresh TaskManager, N serialized calls to reserve_task_id
return exactly the ids 1..N, with no duplicates and strictly increasing;
the registry lock makes each call atomic, so every concurrent schedule is
one of these serializations. -/
theorem reserve_ids_fresh_manager (n : Nat) :
    (reserveN n 0).1 = List.range' 1 n ∧
    (reserveN n 0).1.Nodup ∧
    (reserveN n 0).1.Pairwise (· < ·) := by
  have h := reserveN_fst n 0
  refine ⟨h, ?_, ?_⟩
  · rw [h]; exact List.nodup_range' ..
  · rw [h]; exact List.pairwise_lt_range' ..

/-- C8: cleanup_file is a total function into Bool (it never raises): on
a present path it reports whether the unlink succeeded, on a missing path
or a None argument it reports False, and an immediate second call on the
same argument always reports False. -/
theorem cleanup_file_spec (u : FPath → Bool) (p : FPath) (fs : FS) :
    (cleanup_file u (some p) fs).2.1 = (fs p && u p) ∧
    (cleanup_file u none fs).2.1 = false ∧
    (cleanup_file u (some p) (cleanup_file u (some p) fs).2.2).2.1 = false ∧
    (cleanup_file u none (cleanup_file u none fs).2.2).2.1 = false := by
  by_cases h1 : fs p = true <;> by_cases h2 : u p = true <;>
    simp [cleanup_file, FS.set, h1, h2]

/-- C9 counterexample: timeout expiry, nonzero exit status and malformed
structured output are not surfaced to the caller as distinct values: each
adapter operation collapses them to the same sentinel, so the caller
cannot distinguish the causes. -/
theorem adapter_failure_causes_collapse :
    (get_video_metadata CmdOutcome.timeout (ProbeParse.stream 1 1 1) =
      get_video_metadata CmdOutcome.procError (ProbeParse.stream 1 1 1)) ∧
    (get_video_metadata CmdOutcome.procError (ProbeParse.stream 1 1 1) =
      get_video_metadata CmdOutcome.ok ProbeParse.parseError) ∧
    (check_if_video CmdOutcome.timeout (FormatParse.formatName true) =
      check_if_video CmdOutcome.procError (FormatParse.formatName true)) ∧
    (check_if_video CmdOutcome.procError (FormatParse.formatName true) =
      check_if_video CmdOutcome.ok FormatParse.parseError) ∧
    ((generate_thumbnail CmdOutcome.timeout false samplePath sampleFsNone).1 =
      (generate_thumbnail CmdOutcome.procError false samplePath sampleFsNone).1) ∧
    ((optimize_for_streaming CmdOutcome.timeout false samplePath sampleFsNone).1 =
      (optimize_for_streaming CmdOutcome.procError false samplePath sampleFsNone).1) := by
  decide

/-- C9 amended: each adapter operation returns either a typed result or a
single operation-specific failure sentinel (False, (None, None, None), or
None); timeout, nonzero exit and malformed output all collapse to that
sentinel and are distinguished only in log messages. -/
theorem adapter_failures_surface_as_sentinels (c : CmdOutcome)
    (hc : c ≠ CmdOutcome.ok) (fp : ProbeParse) (gp : FormatParse)
    (q : FPath) (fs : FS) (b : Bool) :
    get_video_metadata c fp = (none, none, none) ∧
    check_if_video c gp = false ∧
    (generate_thumbnail c b q fs).1 = none ∧
    (optimize_for_streaming c b q fs).1 = none ∧
    get_video_metadata CmdOutcome.ok ProbeParse.parseError = (none, none, none) ∧
    check_if_video CmdOutcome.ok FormatParse.parseError = false := by
  cases c <;>
    simp_all [get_video_metadata, check_if_video, generate_thumbnail,
      optimize_for_streaming]

/-- Witness for the amended C9 at the timeout cause. -/
theorem adapter_failures_surface_as_sentinels_witness :
    get_video_metadata CmdOutcome.timeout (ProbeParse.stream 2 2 2) =
      (none, none, none) ∧
    check_if_video CmdOutcome.timeout (FormatParse.formatName true) = false ∧
    (generate_thumbnail CmdOutcome.timeout false samplePath sampleFsNone).1 = none ∧
    (optimize_for_streaming CmdOutcome.timeout false samplePath sampleFsNone).1 = none ∧
    get_video_metadata CmdOutcome.ok ProbeParse.parseError = (none, none, none) ∧
    check_if_video CmdOutcome.ok FormatParse.parseError = false :=
  adapter_failures_surface_as_sentinels CmdOutcome.timeout (by decide)
    (ProbeParse.stream 2 2 2) (FormatParse.formatName true) samplePath
    sampleFsNone false

/-- C10: optimize_for_streaming never names its output identically to its
input: any returned path is the input with _stream appended to the stem,
hence distinct from the input, and cleaning up either of the two files
leaves the other untouched. -/
theorem optimize_output_distinct (c : CmdOutcome) (b : Bool) (p q : FPath)
    (fs fs2 : FS) (u : FPath → Bool)
    (h : (optimize_for_streaming c b p fs).1 = some q) :
    q ≠ p ∧ q = p.with_stem (p.stem ++ "_stream") ∧
    (cleanup_file u (some q) fs2).2.2 p = fs2 p ∧
    (cleanup_file u (some p) fs2).2.2 q = fs2 q := by
  have hq := optimize_some_eq c b p q fs h
  subst hq
  refine ⟨with_stem_stream_ne p, rfl, ?_, ?_⟩
  · exact cleanup_file_frame u _ p fs2
      (fun he => with_stem_stream_ne p he.symm)
  · exact cleanup_file_frame u p _ fs2 (with_stem_stream_ne p)

/-- Witness for C10 at a concrete successful optimization. -/
theorem optimize_output_distinct_witness :
    sampleStream ≠ samplePath ∧
    sampleStream = samplePath.with_stem (samplePath.stem ++ "_stream") ∧
    (cleanup_file unlinkAlways (some sampleStream) sampleFsAll).2.2 samplePath =
      sampleFsAll samplePath ∧
    (cleanup_file unlinkAlways (some samplePath) sampleFsAll).2.2 sampleStream =
      sampleFsAll sampleStream :=
  optimize_output_distinct CmdOutcome.ok true samplePath sampleStream
    sampleFsNone sampleFsAll unlinkAlways (by decide)

/-- Sample outbound environment whose metadata extraction times out. -/
def envMetaFail : UlEnv :=
  ⟨CmdOutcome.ok, FormatParse.formatName true, CmdOutcome.procError, false,
    CmdOutcome.timeout, ProbeParse.stream 1 1 1, CmdOutcome.ok, true, true⟩

/-- Sample outbound environment whose optimization run fails but whose
metadata extraction, thumbnailing and transfer succeed. -/
def envOptFail : UlEnv :=
  ⟨CmdOutcome.ok, FormatParse.formatName true, CmdOutcome.procError, false,
    CmdOutcome.ok, ProbeParse.stream 640 480 60, CmdOutcome.ok, true, true⟩

/-- C2: on every exit path of either worker body (success, timeout, any
other raised error, missing source), TaskManager.remove_task is invoked
exactly once, and afterwards the task id is gone from the registry. -/
theorem remove_task_called_exactly_once (denv : DlEnv) (uenv : UlEnv)
    (p q : FPath) (id1 id2 : Nat) (u1 u2 : FPath → Bool) (fs1 fs2 : FS)
    (r1 r2 : Reg) :
    (download_worker denv p id1 u1 fs1 r1).trace.countP Event.isRemoveTask = 1 ∧
    (upload_worker uenv q id2 u2 fs2 r2).trace.countP Event.isRemoveTask = 1 ∧
    (download_worker denv p id1 u1 fs1 r1).reg id1 = false ∧
    (upload_worker uenv q id2 u2 fs2 r2).reg id2 = false := by
  refine ⟨download_removeTask_once .., upload_removeTask_once .., ?_, ?_⟩
  · rw [download_worker_reg]; simp [remove_task]
  · rw [upload_worker_reg]; simp [remove_task]

/-- C6 counterexample: in the inbound timeout handler the code responds
with the Timeout report first and deletes the partial artifact second
(workers.py:78-83), so the claimed order, deletion before the Timeout
report, is false at this concrete run while the reverse order holds. -/
theorem download_timeout_order_counterexample :
    occursBeforeB (download_worker ⟨DlOutcome.timeout, true⟩ samplePath 1
        unlinkAlways sampleFsNone sampleReg).trace
      (Event.cleanupCall samplePath) Event.respondDownloadTimeout = false ∧
    occursBeforeB (download_worker ⟨DlOutcome.timeout, true⟩ samplePath 1
        unlinkAlways sampleFsNone sampleReg).trace
      Event.respondDownloadTimeout (Event.cleanupCall samplePath) = true := by
  decide

/-- C6 amended: when the inbound transfer exceeds its bound the worker
cancels the transfer, reports Timeout, and then deletes the partial
destination artifact, in that order; afterwards the destination is absent
from disk (when the unlink succeeds) and the task id has been removed
from the registry. -/
theorem download_timeout_behavior (env : DlEnv) (p : FPath) (id : Nat)
    (u : FPath → Bool) (fs : FS) (r : Reg)
    (ht : env.outcome = DlOutcome.timeout) (hu : u p = true) :
    occursBeforeB (download_worker env p id u fs r).trace
      Event.cancelTransfer Event.respondDownloadTimeout = true ∧
    occursBeforeB (download_worker env p id u fs r).trace
      Event.respondDownloadTimeout (Event.cleanupCall p) = true ∧
    (download_worker env p id u fs r).fs p = false ∧
    (download_worker env p id u fs r).reg id = false ∧
    (download_worker env p id u fs r).status = Status.timeout := by
  rcases env with ⟨o, w⟩
  simp only at ht
  subst ht
  refine ⟨?_, ?_, ?_, ?_, rfl⟩
  · simp [download_worker, occursBeforeB, memB, memB_append]
  · simp [download_worker, occursBeforeB, memB, memB_append,
      cleanup_file_memB_call]
  · simp only [download_worker]
    exact cleanup_file_removes u p _ hu
  · simp [download_worker, remove_task]

/-- Witness for the amended C6 at a concrete timed-out inbound run. -/
theorem download_timeout_behavior_witness :
    occursBeforeB (download_worker ⟨DlOutcome.timeout, false⟩ samplePath 2
        unlinkAlways sampleFsNone sampleReg).trace
      Event.cancelTransfer Event.respondDownloadTimeout = true ∧
    occursBeforeB (download_worker ⟨DlOutcome.timeout, false⟩ samplePath 2
        unlinkAlways sampleFsNone sampleReg).trace
      Event.respondDownloadTimeout (Event.cleanupCall samplePath) = true ∧
    (download_worker ⟨DlOutcome.timeout, false⟩ samplePath 2
        unlinkAlways sampleFsNone sampleReg).fs samplePath = false ∧
    (download_worker ⟨DlOutcome.timeout, false⟩ samplePath 2
        unlinkAlways sampleFsNone sampleReg).reg 2 = false ∧
    (download_worker ⟨DlOutcome.timeout, false⟩ samplePath 2
        unlinkAlways sampleFsNone sampleReg).status = Status.timeout :=
  download_timeout_behavior ⟨DlOutcome.timeout, false⟩ samplePath 2
    unlinkAlways sampleFsNone sampleReg rfl rfl

/-- C7: the inbound worker never touches any file other than its
destination path; on success it performs no cleanup at all and the
downloaded artifact is on disk when the worker terminates, and on every
path the only file it ever removes is the destination path. -/
theorem inbound_cleanup_scope (env : DlEnv) (p q : FPath) (id : Nat)
    (u : FPath → Bool) (fs : FS) (r : Reg) (hq : q ≠ p) :
    (download_worker env p id u fs r).fs q = fs q ∧
    (env.outcome = DlOutcome.success →
      (download_worker env p id u fs r).status = Status.success ∧
      (download_worker env p id u fs r).fs p = true ∧
      (download_worker env p id u fs r).trace.countP Event.isCleanupCall = 0 ∧
      (download_worker env p id u fs r).trace.countP Event.isFileRemoved = 0) ∧
    (download_worker env p id u fs r).trace.countP
      (fun e => if e = Event.fileRemoved p then false
        else Event.isFileRemoved e) = 0 := by
  rcases env with ⟨o, w⟩
  cases o
  case success =>
    simp [download_worker, FS.set, hq, List.countP_cons,
      Event.isCleanupCall, Event.isFileRemoved]
  case timeout =>
    refine ⟨?_, by simp, ?_⟩
    · simp only [download_worker]
      rw [cleanup_file_frame u p q _ hq]
      by_cases hw : w = true <;> simp [hw, FS.set, hq]
    · simp only [download_worker]
      rcases cleanup_file_events u p
          (if w = true then fs.set p true else fs) with h | h <;>
        simp [h, List.countP_append, List.countP_cons, Event.isFileRemoved]
  case error =>
    refine ⟨?_, by simp, ?_⟩
    · simp only [download_worker]
      rw [cleanup_file_frame u p q _ hq]
      by_cases hw : w = true <;> simp [hw, FS.set, hq]
    · simp only [download_worker]
      rcases cleanup_file_events u p
          (if w = true then fs.set p true else fs) with h | h <;>
        simp [h, List.countP_append, List.countP_cons, Event.isFileRemoved]

/-- Witness for C7 at a concrete successful inbound run and an unrelated
second path. -/
theorem inbound_cleanup_scope_witness :
    (download_worker ⟨DlOutcome.success, false⟩ samplePath 3 unlinkAlways
      sampleFsNone sampleReg).fs sampleOther = sampleFsNone sampleOther ∧
    (DlOutcome.success = DlOutcome.success →
      (download_worker ⟨DlOutcome.success, false⟩ samplePath 3 unlinkAlways
        sampleFsNone sampleReg).status = Status.success ∧
      (download_worker ⟨DlOutcome.success, false⟩ samplePath 3 unlinkAlways
        sampleFsNone sampleReg).fs samplePath = true ∧
      (download_worker ⟨DlOutcome.success, false⟩ samplePath 3 unlinkAlways
        sampleFsNone sampleReg).trace.countP Event.isCleanupCall = 0 ∧
      (download_worker ⟨DlOutcome.success, false⟩ samplePath 3 unlinkAlways
        sampleFsNone sampleReg).trace.countP Event.isFileRemoved = 0) ∧
    (download_worker ⟨DlOutcome.success, false⟩ samplePath 3 unlinkAlways
      sampleFsNone sampleReg).trace.countP
      (fun e => if e = Event.fileRemoved samplePath then false
        else Event.isFileRemoved e) = 0 :=
  inbound_cleanup_scope ⟨DlOutcome.success, false⟩ samplePath sampleOther 3
    unlinkAlways sampleFsNone sampleReg (by decide)

/-- C4: when the metadata extracted in the outbound pipeline is not all
truthy (absent or zero width, height or duration), the run terminates in
Failure, no send_file transfer is ever attempted, cleanup is invoked on
the source artifact, and the source artifact is gone from disk at the
end (when its unlink succeeds). -/
theorem metadata_missing_aborts_upload (env : UlEnv) (p : FPath) (id : Nat)
    (u : FPath → Bool) (fs : FS) (r : Reg)
    (hex : fs p = true)
    (hmeta : all_truthy (get_video_metadata env.metaCmd env.metaProbe) = false)
    (hu : u p = true) :
    (upload_worker env p id u fs r).status = Status.failure ∧
    (upload_worker env p id u fs r).trace.countP Event.isSend = 0 ∧
    memB (upload_worker env p id u fs r).trace (Event.cleanupCall p) = true ∧
    (upload_worker env p id u fs r).fs p = false := by
  refine ⟨?_, ?_, ?_, ?_⟩
  · simp [upload_worker, hex, hmeta]
  · simp [upload_worker, hex, hmeta, List.countP_append, List.countP_cons,
      Event.isSend, cleanup_files_countP_zero]
  · simp [upload_worker, hex, hmeta, memB, memB_append,
      cleanup_files_calls_last]
  · simp [upload_worker, hex, hmeta, cleanup_files_removes_last, hu]

/-- Witness for C4 at a concrete outbound run whose ffprobe metadata call
times out. -/
theorem metadata_missing_aborts_upload_witness :
    (upload_worker envMetaFail samplePath 4 unlinkAlways sampleFsAll
      sampleReg).status = Status.failure ∧
    (upload_worker envMetaFail samplePath 4 unlinkAlways sampleFsAll
      sampleReg).trace.countP Event.isSend = 0 ∧
    memB (upload_worker envMetaFail samplePath 4 unlinkAlways sampleFsAll
      sampleReg).trace (Event.cleanupCall samplePath) = true ∧
    (upload_worker envMetaFail samplePath 4 unlinkAlways sampleFsAll
      sampleReg).fs samplePath = false :=
  metadata_missing_aborts_upload envMetaFail samplePath 4 unlinkAlways
    sampleFsAll sampleReg rfl (by decide) rfl

/-- C5: when stream optimization produces no output (the adapter returned
None), the outbound pipeline does not fail: it sends the unmodified
source artifact, reports completion with optimized = false, never invokes
cleanup on the would-be optimized path, removes the source only after the
send, and the source is gone at the end. -/
theorem optimize_fallback_uploads_original (env : UlEnv) (p : FPath)
    (id : Nat) (u : FPath → Bool) (fs : FS) (r : Reg)
    (hex : fs p = true)
    (hopt : (optimize_for_streaming env.optCmd env.optCreated p fs).1 = none)
    (hmeta : all_truthy (get_video_metadata env.metaCmd env.metaProbe) = true)
    (hsend : env.sendOk = true)
    (hu : u p = true) :
    (upload_worker env p id u fs r).status = Status.success ∧
    memB (upload_worker env p id u fs r).trace (Event.sendFile p) = true ∧
    memB (upload_worker env p id u fs r).trace
      (Event.respondUploadComplete false) = true ∧
    memB (upload_worker env p id u fs r).trace
      (Event.respondUploadComplete true) = false ∧
    memB (upload_worker env p id u fs r).trace
      (Event.cleanupCall (p.with_stem (p.stem ++ "_stream"))) = false ∧
    occursBeforeB (upload_worker env p id u fs r).trace
      (Event.sendFile p) (Event.cleanupCall p) = true ∧
    (upload_worker env p id u fs r).fs p = false := by
  have hstream := with_stem_stream_ne p
  have hjpg := with_suffix_jpg_ne_stream p
  have hmemAll : ∀ fs1 : FS, some (p.with_stem (p.stem ++ "_stream")) ∉
      [(generate_thumbnail env.thumbCmd env.thumbCreated p fs1).1, none,
        some p] := by
    intro fs1 hin
    simp only [List.mem_cons, List.not_mem_nil, or_false] at hin
    rcases hin with hin | hin | hin
    · rcases hx : (generate_thumbnail env.thumbCmd env.thumbCreated p fs1).1
        with _ | q2
      · rw [hx] at hin; cases hin
      · rw [hx] at hin
        exact absurd (by
            rw [← thumbnail_some_eq _ _ _ _ _ hx,
              ← Option.some.inj hin]) hjpg
    · cases hin
    · exact hstream (Option.some.inj hin)
  have hothAll : ∀ fs1 : FS,
      memB (cleanup_files u
        [(generate_thumbnail env.thumbCmd env.thumbCreated p fs1).1, none,
          some p]
        (generate_thumbnail env.thumbCmd env.thumbCreated p fs1).2).1
        (Event.cleanupCall (p.with_stem (p.stem ++ "_stream"))) = false :=
    fun fs1 => cleanup_files_memB_other u _ _ _ (hmemAll fs1)
  by_cases hb :
      (suffix_is_video p && check_if_video env.checkCmd env.checkParse) = true
  · refine ⟨?_, ?_, ?_, ?_, ?_, ?_, ?_⟩
    · simp [upload_worker, hex, hb, hopt, hmeta, hsend]
    · simp [upload_worker, hex, hb, hopt, hmeta, hsend, memB, memB_append]
    · simp [upload_worker, hex, hb, hopt, hmeta, hsend, memB, memB_append]
    · simp [upload_worker, hex, hb, hopt, hmeta, hsend, memB, memB_append,
        cleanup_files_memB_not_cleanup]
    · simp [upload_worker, hex, hb, hopt, hmeta, hsend, memB, memB_append,
        opt_cleanup_arg, hothAll]
    · simp [upload_worker, hex, hb, hopt, hmeta, hsend, occursBeforeB, memB,
        memB_append, cleanup_files_calls_last]
    · simp [upload_worker, hex, hb, hopt, hmeta, hsend,
        cleanup_files_removes_last, hu]
  · refine ⟨?_, ?_, ?_, ?_, ?_, ?_, ?_⟩
    · simp [upload_worker, hex, hb, hmeta, hsend]
    · simp [upload_worker, hex, hb, hmeta, hsend, memB, memB_append]
    · simp [upload_worker, hex, hb, hmeta, hsend, memB, memB_append]
    · simp [upload_worker, hex, hb, hmeta, hsend, memB, memB_append,
        cleanup_files_memB_not_cleanup]
    · simp [upload_worker, hex, hb, hmeta, hsend, memB, memB_append,
        opt_cleanup_arg, hothAll]
    · simp [upload_worker, hex, hb, hmeta, hsend, occursBeforeB, memB,
        memB_append, cleanup_files_calls_last]
    · simp [upload_worker, hex, hb, hmeta, hsend,
        cleanup_files_removes_last, hu]

/-- Witness for C5 at a concrete outbound run whose ffmpeg optimization
run exits nonzero while everything else succeeds. -/
theorem optimize_fallback_uploads_original_witness :
    (upload_worker envOptFail samplePath 5 unlinkAlways sampleFsAll
      sampleReg).status = Status.success ∧
    memB (upload_worker envOptFail samplePath 5 unlinkAlways sampleFsAll
      sampleReg).trace (Event.sendFile samplePath) = true ∧
    memB (upload_worker envOptFail samplePath 5 unlinkAlways sampleFsAll
      sampleReg).trace (Event.respondUploadComplete false) = true ∧
    memB (upload_worker envOptFail samplePath 5 unlinkAlways sampleFsAll
      sampleReg).trace (Event.respondUploadComplete true) = false ∧
    memB (upload_worker envOptFail samplePath 5 unlinkAlways sampleFsAll
      sampleReg).trace (Event.cleanupCall
        (samplePath.with_stem (samplePath.stem ++ "_stream"))) = false ∧
    occursBeforeB (upload_worker envOptFail samplePath 5 unlinkAlways
      sampleFsAll sampleReg).trace (Event.sendFile samplePath)
      (Event.cleanupCall samplePath) = true ∧
    (upload_worker envOptFail samplePath 5 unlinkAlways sampleFsAll
      sampleReg).fs samplePath = false :=
  optimize_fallback_uploads_original envOptFail samplePath 5 unlinkAlways
    sampleFsAll sampleReg rfl (by decide) (by decide) rfl rfl

end Userbot
